import Mathlib

/-!
Shallow embedding of the binny-buddy object-detection backend
(src/app of the repository) and proofs about its specification.

Conventions of the embedding:
* Python floats that are only compared against the fixed threshold are
  modelled as rationals (the claims are order-theoretic, not about
  rounding).
* Raw bytes are modelled as natural numbers below 256; strings of the
  base64 alphabet are modelled by their ASCII code points.
* Calls into third-party libraries (the regex engine, the JSON decoder,
  PIL, the filesystem, the random source, the Gemini client) are
  modelled as explicit oracle parameters; a Python exception raised by
  the embedded code itself is an Except.error value.
-/

/-! ## JSON values (the result of json.loads) -/

/-- A decoded JSON value. Numbers are modelled as rationals. -/
inductive JValue : Type where
  | null : JValue
  | bool : Bool → JValue
  | num : Rat → JValue
  | str : String → JValue
  | arr : List JValue → JValue
  | obj : List (String × JValue) → JValue

/-- Field lookup in a decoded JSON object. json.loads keeps the last
occurrence of a duplicated key, hence the reversed search. -/
def lookupField (fields : List (String × JValue)) (k : String) : Option JValue :=
  (fields.reverse.find? (fun p => p.1 = k)).map (fun p => p.2)

/-! ## Python string primitives
The string methods the code uses (lower, startswith, endswith,
os.path.basename) are modelled over the character list of the string,
so that every definition evaluates on concrete inputs. -/

/-- Is the second character list a leading segment of the first
(str.startswith, character by character)? -/
def charsStartWith : List Char → List Char → Bool
  | _, [] => true
  | [], _ :: _ => false
  | c :: cs, p :: ps => c = p && charsStartWith cs ps

/-- Python str.startswith. -/
def pyStartsWith (s pre : String) : Bool := charsStartWith s.data pre.data

/-- Python str.endswith. -/
def pyEndsWith (s suf : String) : Bool :=
  charsStartWith s.data.reverse suf.data.reverse

/-- Python str.lower on ASCII text. -/
def pyLower (s : String) : String := ⟨s.data.map Char.toLower⟩

/-- os.path.basename: the characters after the last slash. -/
def pyBasename (s : String) : String :=
  ⟨s.data.foldl (fun acc c => if c = '/' then [] else acc.concat c) []⟩

/-! ## Data model (src/app/models/detection.py, asset.py, error_response.py) -/

/-- PlasticType enum: cup, bottle, container. -/
inductive PlasticType : Type where
  | cup : PlasticType
  | bottle : PlasticType
  | container : PlasticType
deriving DecidableEq

/-- The string value of a PlasticType member. -/
def PlasticType.value : PlasticType → String
  | .cup => "cup"
  | .bottle => "bottle"
  | .container => "container"

/-- WasteStatus enum: clean, dirty. -/
inductive WasteStatus : Type where
  | clean : WasteStatus
  | dirty : WasteStatus
deriving DecidableEq

/-- The string value of a WasteStatus member. -/
def WasteStatus.value : WasteStatus → String
  | .clean => "clean"
  | .dirty => "dirty"

/-- DetectedObject (src/app/models/detection.py). how_to_recycle is
optional with default None; box_2d is declared Optional without a
default, so pydantic treats it as a required field that may be null. -/
structure DetectedObject : Type where
  label : PlasticType
  confidence : Rat
  status : WasteStatus
  how_to_recycle : Option String
  box_2d : Option (List Rat)
deriving DecidableEq

/-- DetectionResponse (src/app/models/detection.py). -/
structure DetectionResponse : Type where
  success : Bool
  objects : List DetectedObject
  total_objects : Nat
deriving DecidableEq

/-- AssetType enum (src/app/models/asset.py). -/
inductive AssetType : Type where
  | texture : AssetType
  | accessory : AssetType
deriving DecidableEq

/-- The string value of an AssetType member. -/
def AssetType.value : AssetType → String
  | .texture => "texture"
  | .accessory => "accessory"

/-- AssetFile (src/app/models/asset.py): filename, base64 content
(modelled as the list of ASCII codes of the base64 text), optional
size. -/
structure AssetFile : Type where
  filename : String
  content_base64 : List Nat
  size : Option Nat
deriving DecidableEq

/-- AssetResponse (src/app/models/asset.py). -/
structure AssetResponse : Type where
  success : Bool
  file : Option AssetFile
deriving DecidableEq

/-- UnprocessableEntityResponse (src/app/models/error_response.py):
the 422 body shape DECLARED in the responses table of the /detect
route; error_code defaults to 422 and error_message to a fixed text. -/
structure UnprocessableEntityResponse : Type where
  detail : String
  error_code : Nat
  error_message : String
deriving DecidableEq

/-- Defaults of UnprocessableEntityResponse applied to a detail. -/
def mkUnprocessableEntityResponse (detail : String) : UnprocessableEntityResponse :=
  ⟨detail, 422, "Unprocessable Entity"⟩

/-! ## Pydantic validation of DetectedObject
(TypeAdapter(List[DetectedObject]).validate_python in
src/app/services/gemini_service.py) -/

/-- Parse a JSON value as a PlasticType enum member (pydantic accepts
the string value of a str-enum). -/
def parsePlasticType : JValue → Option PlasticType
  | .str s =>
      if s = "cup" then some .cup
      else if s = "bottle" then some .bottle
      else if s = "container" then some .container
      else none
  | _ => none

/-- Parse a JSON value as a WasteStatus enum member. -/
def parseWasteStatus : JValue → Option WasteStatus
  | .str s =>
      if s = "clean" then some .clean
      else if s = "dirty" then some .dirty
      else none
  | _ => none

/-- Parse a JSON value as a float field (a JSON number). -/
def parseNum : JValue → Option Rat
  | .num q => some q
  | _ => none

/-- Parse the optional how_to_recycle field: absent or null gives
none, a string gives the string, anything else fails validation. -/
def parseHowToRecycle (fields : List (String × JValue)) : Option (Option String) :=
  match lookupField fields "how_to_recycle" with
  | none => some none
  | some .null => some none
  | some (.str s) => some (some s)
  | some _ => none

/-- Parse the required box_2d field: it must be present; null gives
none, a list of numbers gives the list, anything else fails. -/
def parseBox2d (fields : List (String × JValue)) : Option (Option (List Rat)) :=
  match lookupField fields "box_2d" with
  | none => none
  | some .null => some none
  | some (.arr l) => (l.mapM parseNum).map some
  | some _ => none

/-- Pydantic validation of one DetectedObject from a decoded JSON
element: the element must be an object with valid label, confidence
and status fields, an optional how_to_recycle and a present (possibly
null) box_2d. Extra fields are ignored. A none result models a
ValidationError for this element. -/
def validateDetectedObject : JValue → Option DetectedObject
  | .obj fields => do
      let labelJ ← lookupField fields "label"
      let label ← parsePlasticType labelJ
      let confJ ← lookupField fields "confidence"
      let confidence ← parseNum confJ
      let statusJ ← lookupField fields "status"
      let status ← parseWasteStatus statusJ
      let how ← parseHowToRecycle fields
      let box ← parseBox2d fields
      some ⟨label, confidence, status, how, box⟩
  | _ => none

/-- TypeAdapter(List[DetectedObject]).validate_python: validates the
whole decoded list; a single failing element raises ValidationError
for the whole call (modelled by none). -/
def validateList : List JValue → Option (List DetectedObject)
  | [] => some []
  | j :: rest => do
      let obj ← validateDetectedObject j
      let objs ← validateList rest
      some (obj :: objs)

/-! ## Response Extractor (src/app/services/gemini_service.py) -/

/-- CONFIDENCE_THRESHOLD = 0.6 (src/app/services/gemini_service.py),
given directly as the reduced fraction three fifths so that it
evaluates in the kernel. -/
def CONFIDENCE_THRESHOLD : Rat := ⟨3, 5, by decide, by decide⟩

/-- The body of parse_gemini_response after json.loads succeeded on
the regex match: validate the array with the TypeAdapter, then keep
the objects whose confidence reaches the threshold. A ValidationError
is caught by the surrounding try and leaves the accumulator empty. -/
def parse_from_decoded (objects_list : List JValue) : List DetectedObject :=
  match validateList objects_list with
  | none => []
  | some parsed_objects =>
      parsed_objects.filter (fun obj => CONFIDENCE_THRESHOLD ≤ obj.confidence)

/-- A Gemini GenerateContentResponse, reduced to what
parse_gemini_response reads: the text of each part of the first
candidate (an empty list models missing candidates or parts; a none
entry models a part whose text attribute is None). -/
structure GenResponse : Type where
  parts : List (Option String)

/-- parse_gemini_response (src/app/services/gemini_service.py).
The regex search for the bracketed-array shape and json.loads are
oracle parameters: search gives the matched substring of the text or
none, jsonLoads gives the decoded array elements or none when decoding
raises (the matched text starts with a bracket, so a successful decode
is always an array). A part with no text makes re.search raise, which
the try catches, yielding the empty list. -/
def parse_gemini_response (search : String → Option String)
    (jsonLoads : String → Option (List JValue)) (response : GenResponse) :
    List DetectedObject :=
  match response.parts with
  | [] => []
  | none :: _ => []
  | some response_text :: _ =>
      match search response_text with
      | none => []
      | some matched =>
          match jsonLoads matched with
          | none => []
          | some objects_list => parse_from_decoded objects_list

/-- create_detection_response (src/app/services/gemini_service.py). -/
def create_detection_response (success : Bool) (objects : List DetectedObject) :
    DetectionResponse :=
  if success then ⟨true, objects, objects.length⟩
  else ⟨false, [], 0⟩

/-- detect_objects (src/app/services/gemini_service.py). Opening the
image and calling the Gemini API are combined into the pipeline
parameter: an error value models an exception raised by Image.open or
by the API call, caught by the try of detect_objects. -/
def detect_objects (search : String → Option String)
    (jsonLoads : String → Option (List JValue))
    (pipeline : Except String GenResponse) : DetectionResponse :=
  match pipeline with
  | .error _ => create_detection_response false []
  | .ok response =>
      let detected_objects := parse_gemini_response search jsonLoads response
      if detected_objects.isEmpty then create_detection_response false []
      else create_detection_response true detected_objects

/-! ## Image Validator (src/app/utils/image_utils.py)
PIL is external, so it is modelled as an oracle: openFormat gives the
format attribute of Image.open on the bytes (or the exception it
raised), verify gives the outcome of Image.open followed by verify. -/

/-- The PIL behaviour on byte strings, as seen by image_utils. -/
structure PILOracle : Type where
  openFormat : List Nat → Except String (Option String)
  verify : List Nat → Except String Unit

/-- get_image_format (src/app/utils/image_utils.py): lower-cased
format of the opened image, none when the format attribute is None or
any exception was raised. -/
def get_image_format (pil : PILOracle) (image_data : List Nat) : Option String :=
  match pil.openFormat image_data with
  | .error _ => none
  | .ok none => none
  | .ok (some f) => some (pyLower f)

/-- validate_image (src/app/utils/image_utils.py): format must be one
of jpeg, png, jpg, bmp (the membership test also rejects the none
format), then the image must verify; any exception gives false. -/
def validate_image (pil : PILOracle) (image_data : List Nat) : Bool :=
  match get_image_format pil image_data with
  | none => false
  | some img_format =>
      if ["jpeg", "png", "jpg", "bmp"].contains img_format then
        match pil.verify image_data with
        | .ok _ => true
        | .error _ => false
      else false

/-! ## Base64 (base64.b64encode / base64.b64decode over ASCII codes) -/

/-- The 64 alphabet characters of standard base64, as ASCII codes:
A-Z, a-z, 0-9, plus, slash. The padding character is code 61. -/
def b64AlphabetCodes : List Nat :=
  (List.range 26).map (fun i => 65 + i) ++ (List.range 26).map (fun i => 97 + i) ++
    (List.range 10).map (fun i => 48 + i) ++ [43, 47]

/-- The alphabet character of a six-bit value. -/
def b64Char (n : Nat) : Nat := b64AlphabetCodes.getD n 65

/-- The six-bit value of an alphabet character. -/
def b64Index (c : Nat) : Nat := b64AlphabetCodes.indexOf c

/-- base64.b64encode on a byte list: three bytes become four alphabet
characters; a trailing group of one or two bytes is zero-extended and
padded with one or two padding characters (code 61). -/
def b64encodeBytes : List Nat → List Nat
  | [] => []
  | [a] => [b64Char (a / 4), b64Char (a % 4 * 16), 61, 61]
  | [a, b] => [b64Char (a / 4), b64Char (a % 4 * 16 + b / 16), b64Char (b % 16 * 4), 61]
  | a :: b :: c :: rest =>
      b64Char (a / 4) :: b64Char (a % 4 * 16 + b / 16) ::
        b64Char (b % 16 * 4 + c / 64) :: b64Char (c % 64) :: b64encodeBytes rest

/-- Decoding of one four-character base64 group, honouring padding. -/
def b64decodeQuad (c1 c2 c3 c4 : Nat) : List Nat :=
  if c3 = 61 then [b64Index c1 * 4 + b64Index c2 / 16]
  else if c4 = 61 then
    [b64Index c1 * 4 + b64Index c2 / 16, b64Index c2 % 16 * 16 + b64Index c3 / 4]
  else
    [b64Index c1 * 4 + b64Index c2 / 16, b64Index c2 % 16 * 16 + b64Index c3 / 4,
      b64Index c3 % 4 * 64 + b64Index c4]

/-- base64.b64decode on well-formed input: decode four characters at a
time. -/
def b64decodeBytes : List Nat → List Nat
  | c1 :: c2 :: c3 :: c4 :: rest => b64decodeQuad c1 c2 c3 c4 ++ b64decodeBytes rest
  | _ => []

/-! ## Asset service (src/app/services/asset.py) -/

/-- The filesystem as the asset service sees it: which paths exist,
the directory listing, and the bytes of each file. -/
structure FS : Type where
  pathExists : String → Bool
  listdir : String → List String
  content : String → Option (List Nat)

/-- os.path.basename of a path. -/
def basename (p : String) : String := pyBasename p

/-- read_asset_file (src/app/services/asset.py): read the bytes, take
the basename and the on-disk size (equal to the length of the bytes
just read, the filesystem being unchanged during the call), and build
the AssetFile with the base64 text of the bytes. A missing file makes
open raise. -/
def read_asset_file (fs : FS) (asset_file_path : String) : Except String AssetFile :=
  match fs.content asset_file_path with
  | none => .error "FileNotFoundError"
  | some file_data =>
      .ok ⟨basename asset_file_path, b64encodeBytes file_data, some file_data.length⟩

/-- random.choice: picks the element at an arbitrary oracle index for
a nonempty list and raises IndexError on an empty one. -/
def random_choice (pick : Nat) : List String → Except String String
  | [] => .error "IndexError: Cannot choose from an empty sequence"
  | x :: xs => .ok ((x :: xs).getD (pick % (x :: xs).length) x)

/-- get_created_asset (src/app/services/asset.py): none when the
directory is absent; otherwise filter the listing by the
startswith/endswith naming convention and read a random matching
file. An empty filtered list reaches random.choice, which raises. -/
def get_created_asset (fs : FS) (pick : Nat) (model : PlasticType)
    (asset_type : AssetType) (asset_dir : String := "app/assets/created") :
    Except String (Option AssetFile) :=
  if fs.pathExists asset_dir = false then .ok none
  else
    let asset_files := (fs.listdir asset_dir).filter
      (fun f => pyStartsWith f (model.value ++ "_" ++ asset_type.value)
        && pyEndsWith f ".jpg")
    match random_choice pick asset_files with
    | .error e => .error e
    | .ok asset_file =>
        match read_asset_file fs (asset_dir ++ "/" ++ asset_file) with
        | .error e => .error e
        | .ok af => .ok (some af)

/-! ## Asset creation (request_create_asset,
src/app/services/gemini_service.py) -/

/-- One part of the image-generation response: its optional inline
binary data. -/
structure GenPart : Type where
  inline_data : Option (List Nat)

/-- The loop of request_create_asset over the response parts: the
inline data of the first part that has any. -/
def firstInlineData (parts : List GenPart) : Option (List Nat) :=
  (parts.filterMap (fun p => p.inline_data)).head?

/-- request_create_asset (src/app/services/gemini_service.py), from
the parts of the generation response onward. Saving the file to disk
is a side effect with no bearing on the returned value and is elided;
now is the timestamp rendered into the file name. An exception
anywhere in the try (modelled by an error generation outcome) gives
the failure response. -/
def request_create_asset (generation : Except String (List GenPart))
    (asset_model : String) (asset_type : String) (now : String) : AssetResponse :=
  match generation with
  | .error _ => ⟨false, none⟩
  | .ok parts =>
      match firstInlineData parts with
      | none => ⟨false, none⟩
      | some first_image_data =>
          let file_name := asset_model ++ "_" ++ asset_type ++ "_" ++ now ++ ".jpg"
          ⟨true, some ⟨file_name, b64encodeBytes first_image_data,
            some first_image_data.length⟩⟩

/-! ## HTTP endpoints (src/app/main.py) -/

/-- The outcome of a request handler: a 200 response with a typed
body, or an HTTPException with its status and detail (FastAPI renders
the latter as an error response of that status). -/
inductive EndpointResult (α : Type) : Type where
  | ok : α → EndpointResult α
  | httpError : Nat → String → EndpointResult α
deriving DecidableEq

/-- The HTTP status of an endpoint result: 200 for a plain return. -/
def http_status {α : Type} : EndpointResult α → Nat
  | .ok _ => 200
  | .httpError s _ => s

/-- The JSON body FastAPI renders for a raised HTTPException: a single
detail field (the default http_exception_handler). -/
def fastapi_http_exception_body (detail : String) : List (String × JValue) :=
  [("detail", .str detail)]

/-- detect_image, the POST /detect handler (src/app/main.py): 422 when
no image was provided or the bytes fail validation; otherwise the
downstream detection result is returned as the 200 body, and any
exception from the downstream call is caught and turned into the
failure-shaped DetectionResponse. -/
def detect_image (pil : PILOracle) (image : Option (List Nat))
    (downstream : Except String DetectionResponse) : EndpointResult DetectionResponse :=
  match image with
  | none => .httpError 422 "No image provided"
  | some contents =>
      if validate_image pil contents = false then
        .httpError 422 "Invalid image format"
      else
        match downstream with
        | .ok detection_result => .ok detection_result
        | .error _ => .ok ⟨false, [], 0⟩

/-- get_asset, the GET /asset/ handler (src/app/main.py). The call to
get_created_asset happens before the try block, so an exception it
raises propagates out of the handler (an error value here); the try
block only wraps the construction of the success response, which
cannot raise. -/
def get_asset (fs : FS) (pick : Nat) (model : PlasticType) (asset_type : AssetType) :
    Except String (EndpointResult AssetResponse) :=
  match get_created_asset fs pick model asset_type with
  | .error e => .error e
  | .ok created_asset => .ok (.ok ⟨true, created_asset⟩)

/-! ## Concrete example values -/

/-- A decoded JSON element that validates as a DetectedObject with
confidence nine tenths. -/
def exGoodJson : JValue :=
  .obj [("label", .str "cup"), ("confidence", .num ⟨9, 10, by decide, by decide⟩),
    ("status", .str "clean"), ("box_2d", .null)]

/-- The DetectedObject that exGoodJson validates to. -/
def exGoodObj : DetectedObject :=
  ⟨.cup, ⟨9, 10, by decide, by decide⟩, .clean, none, none⟩

/-- A decoded JSON element with every required field missing: it fails
pydantic validation. -/
def exBadJson : JValue := .obj []

/-- A PIL oracle for a well-formed JPEG: opening reports the JPEG
format and verification succeeds. -/
def pilOk : PILOracle := ⟨fun _ => .ok (some "JPEG"), fun _ => .ok ()⟩

/-- A PIL oracle for junk bytes: opening raises
UnidentifiedImageError, so does verification. -/
def pilJunk : PILOracle :=
  ⟨fun _ => .error "UnidentifiedImageError", fun _ => .error "UnidentifiedImageError"⟩

/-- The bytes of the ASCII text hello: not an image. -/
def junkBytes : List Nat := [104, 101, 108, 108, 111]

/-- The four leading bytes of a JPEG file. -/
def jpegBytes : List Nat := [255, 216, 255, 224]

/-- A filesystem in which the asset directory exists but no file in it
matches the cup texture naming convention. -/
def fsNoMatch : FS :=
  ⟨fun p => p = "app/assets/created",
    fun _ => ["bottle_texture_20250101.jpg", "notes.txt"],
    fun _ => none⟩

/-- A filesystem with no asset directory at all. -/
def fsNoDir : FS := ⟨fun _ => false, fun _ => [], fun _ => none⟩

/-- A filesystem holding one created cup texture of four bytes. -/
def fsOne : FS :=
  ⟨fun p => p = "app/assets/created",
    fun _ => ["cup_texture_1.jpg"],
    fun p => if p = "app/assets/created/cup_texture_1.jpg"
      then some [0, 1, 254, 255] else none⟩

/-! ## Theorems -/

/-- The threshold is the rational value of the source literal 0.6. -/
theorem CONFIDENCE_THRESHOLD_eq : CONFIDENCE_THRESHOLD = 6 / 10 := by
  rw [CONFIDENCE_THRESHOLD, Rat.mk'_eq_divInt, Rat.divInt_eq_div]
  norm_num

/-! ## Base64 round-trip -/

/-- Decoding inverts encoding on each six-bit value. -/
theorem b64Index_b64Char_fin : ∀ n : Fin 64, b64Index (b64Char n.val) = n.val := by decide

/-- No alphabet character is the padding character. -/
theorem b64Char_ne_61_fin : ∀ n : Fin 64, b64Char n.val ≠ 61 := by decide

/-- Decoding inverts encoding on six-bit values, Nat form. -/
theorem b64Index_b64Char (n : Nat) (h : n < 64) : b64Index (b64Char n) = n :=
  b64Index_b64Char_fin ⟨n, h⟩

/-- Alphabet characters differ from padding, Nat form. -/
theorem b64Char_ne_61 (n : Nat) (h : n < 64) : b64Char n ≠ 61 :=
  b64Char_ne_61_fin ⟨n, h⟩

/-- Decoding a base64 encoding recovers the original bytes. -/
theorem b64decode_b64encode (l : List Nat) (h : ∀ x ∈ l, x < 256) :
    b64decodeBytes (b64encodeBytes l) = l := by
  induction l using b64encodeBytes.induct with
  | case1 => rfl
  | case2 a =>
      have ha : a < 256 := h a (by simp)
      simp only [b64encodeBytes, b64decodeBytes, b64decodeQuad, if_pos rfl]
      rw [b64Index_b64Char (a / 4) (by omega), b64Index_b64Char (a % 4 * 16) (by omega)]
      simp
      omega
  | case3 a b =>
      have ha : a < 256 := h a (by simp)
      have hb : b < 256 := h b (by simp)
      simp only [b64encodeBytes, b64decodeBytes, b64decodeQuad]
      rw [if_neg (b64Char_ne_61 (b % 16 * 4) (by omega))]
      simp only [if_true]
      rw [b64Index_b64Char (a / 4) (by omega),
        b64Index_b64Char (a % 4 * 16 + b / 16) (by omega),
        b64Index_b64Char (b % 16 * 4) (by omega)]
      simp
      constructor
      · omega
      · omega
  | case4 a b c rest ih =>
      have ha : a < 256 := h a (by simp)
      have hb : b < 256 := h b (by simp)
      have hc : c < 256 := h c (by simp)
      have hrest : ∀ x ∈ rest, x < 256 := fun x hx => h x (by simp [hx])
      simp only [b64encodeBytes, b64decodeBytes, b64decodeQuad]
      rw [if_neg (b64Char_ne_61 (b % 16 * 4 + c / 64) (by omega)),
        if_neg (b64Char_ne_61 (c % 64) (by omega))]
      rw [b64Index_b64Char (a / 4) (by omega),
        b64Index_b64Char (a % 4 * 16 + b / 16) (by omega),
        b64Index_b64Char (b % 16 * 4 + c / 64) (by omega),
        b64Index_b64Char (c % 64) (by omega)]
      rw [ih hrest]
      simp
      refine ⟨by omega, by omega, by omega⟩

/-! ## Helper lemmas -/

/-- TypeAdapter list validation fails as a whole as soon as one
element fails. -/
theorem validateList_eq_none_of_mem (l : List JValue) (j : JValue) (hj : j ∈ l)
    (hfail : validateDetectedObject j = none) : validateList l = none := by
  induction l with
  | nil => cases hj
  | cons x xs ih =>
      cases hj with
      | head => simp [validateList, hfail]
      | tail _ hmem =>
          cases hx : validateDetectedObject x with
          | none => simp [validateList, hx]
          | some obj => simp [validateList, hx, ih hmem]

/-! ## Claims -/

/-- C1, counterexample: in the decoded array holding one valid element
of confidence nine tenths and one element missing its required fields,
the code drops the valid element together with the invalid one — the
result is empty, refuting per-element leniency. -/
theorem C1_counterexample :
    validateDetectedObject exGoodJson = some exGoodObj
      ∧ CONFIDENCE_THRESHOLD ≤ exGoodObj.confidence
      ∧ validateDetectedObject exBadJson = none
      ∧ parse_from_decoded [exGoodJson, exBadJson] = []
      ∧ exGoodObj ∉ parse_from_decoded [exGoodJson, exBadJson] :=
  ⟨rfl, by decide, rfl, rfl, by decide⟩

/-- C1 (amended): validation of the decoded array is all-or-nothing:
if any element of the array fails required-field or type validation,
the Response Extractor returns the empty list, dropping the valid
elements of the same array as well. -/
theorem C1_element_failure_drops_array (l : List JValue) (j : JValue)
    (hj : j ∈ l) (hfail : validateDetectedObject j = none) :
    parse_from_decoded l = [] := by
  simp [parse_from_decoded, validateList_eq_none_of_mem l j hj hfail]

/-- C1 witness: the amended claim applied to the concrete two-element
array. -/
theorem C1_element_failure_drops_array_witness :
    exBadJson ∈ [exGoodJson, exBadJson]
      ∧ validateDetectedObject exBadJson = none
      ∧ parse_from_decoded [exGoodJson, exBadJson] = [] :=
  ⟨.tail _ (.head _), rfl,
    C1_element_failure_drops_array [exGoodJson, exBadJson] exBadJson
      (.tail _ (.head _)) rfl⟩

/-- C2: when the regex search, the JSON decode and the schema
validation all succeed, the extractor returns exactly the validated
candidates whose confidence reaches the threshold 0.6, in their
original relative order (a sublist of the decoded list). -/
theorem C2_confidence_filter (search : String → Option String)
    (jsonLoads : String → Option (List JValue)) (t s : String)
    (rest : List (Option String)) (l : List JValue) (parsed : List DetectedObject)
    (hs : search t = some s) (hl : jsonLoads s = some l)
    (hv : validateList l = some parsed) :
    parse_gemini_response search jsonLoads ⟨some t :: rest⟩
        = parsed.filter (fun obj => CONFIDENCE_THRESHOLD ≤ obj.confidence)
      ∧ (parse_gemini_response search jsonLoads ⟨some t :: rest⟩).Sublist parsed
      ∧ ∀ obj ∈ parsed,
          (obj ∈ parse_gemini_response search jsonLoads ⟨some t :: rest⟩
            ↔ CONFIDENCE_THRESHOLD ≤ obj.confidence) := by
  have hmain : parse_gemini_response search jsonLoads ⟨some t :: rest⟩
      = parsed.filter (fun obj => CONFIDENCE_THRESHOLD ≤ obj.confidence) := by
    simp [parse_gemini_response, hs, hl, parse_from_decoded, hv]
  refine ⟨hmain, ?_, ?_⟩
  · rw [hmain]
    exact List.filter_sublist parsed
  · intro obj hobj
    rw [hmain]
    simp [List.mem_filter, hobj]

/-- C2 witness: the filter applied to a concrete decoded singleton. -/
theorem C2_confidence_filter_witness :
    validateList [exGoodJson] = some [exGoodObj]
      ∧ parse_gemini_response (fun _ => some "m") (fun _ => some [exGoodJson])
          ⟨[some "t"]⟩
        = [exGoodObj].filter (fun obj => CONFIDENCE_THRESHOLD ≤ obj.confidence) :=
  ⟨rfl,
    (C2_confidence_filter (fun _ => some "m") (fun _ => some [exGoodJson]) "t" "m"
      [] [exGoodJson] [exGoodObj] rfl rfl rfl).1⟩

/-- C3: every DetectionResponse the program constructs has
total_objects equal to the length of its objects list: both branches
of create_detection_response, the fallback response of the detect_image
handler in main.py, and every result of detect_objects. -/
theorem C3_total_objects_eq_length :
    (∀ (success : Bool) (objects : List DetectedObject),
        (create_detection_response success objects).total_objects
          = (create_detection_response success objects).objects.length)
      ∧ (DetectionResponse.mk false [] 0).total_objects
          = (DetectionResponse.mk false [] 0).objects.length
      ∧ ∀ (search : String → Option String)
          (jsonLoads : String → Option (List JValue))
          (pipeline : Except String GenResponse),
          (detect_objects search jsonLoads pipeline).total_objects
            = (detect_objects search jsonLoads pipeline).objects.length := by
  refine ⟨?_, rfl, ?_⟩
  · intro success objects
    cases success <;> simp [create_detection_response]
  · intro search jsonLoads pipeline
    cases pipeline with
    | error e => simp [detect_objects, create_detection_response]
    | ok response =>
        simp only [detect_objects]
        cases h : (parse_gemini_response search jsonLoads response).isEmpty <;>
          simp [create_detection_response]

/-- C4, code evaluation at the failing input: with the asset directory
present but containing no file matching the cup texture naming
convention, get_created_asset raises IndexError (random.choice on the
empty filtered list) instead of returning a no-asset result, and the
exception propagates out of the get_asset handler because the call
happens before its try block. The absent-directory branch does return
the no-asset result. -/
theorem C4_no_match_raises :
    get_created_asset fsNoMatch 0 .cup .texture
        = .error "IndexError: Cannot choose from an empty sequence"
      ∧ get_asset fsNoMatch 0 .cup .texture
        = .error "IndexError: Cannot choose from an empty sequence"
      ∧ get_created_asset fsNoDir 0 .cup .texture = .ok none :=
  ⟨rfl, rfl, rfl⟩

/-- C5: for an upload that passes image validation, a downstream
pipeline failure or an empty detection list yields the HTTP 200
response with success false, no objects and count zero, and no
downstream outcome of the /detect handler can produce a status other
than 200. -/
theorem C5_downstream_failure_200 (pil : PILOracle) (contents : List Nat)
    (search : String → Option String) (jsonLoads : String → Option (List JValue))
    (hval : validate_image pil contents = true) :
    (∀ e : String,
        detect_image pil (some contents)
            (.ok (detect_objects search jsonLoads (.error e)))
          = .ok ⟨false, [], 0⟩)
      ∧ (∀ response : GenResponse,
          parse_gemini_response search jsonLoads response = [] →
          detect_image pil (some contents)
              (.ok (detect_objects search jsonLoads (.ok response)))
            = .ok ⟨false, [], 0⟩)
      ∧ ∀ downstream : Except String DetectionResponse,
          http_status (detect_image pil (some contents) downstream) = 200 := by
  refine ⟨?_, ?_, ?_⟩
  · intro e
    simp [detect_image, hval, detect_objects, create_detection_response]
  · intro response hresp
    simp [detect_image, hval, detect_objects, hresp, create_detection_response]
  · intro downstream
    cases downstream <;> simp [detect_image, hval, http_status]

/-- C5 witness: a valid JPEG whose downstream call raises, and one
whose downstream result is empty, both give the 200 failure body. -/
theorem C5_downstream_failure_200_witness :
    validate_image pilOk jpegBytes = true
      ∧ detect_image pilOk (some jpegBytes)
          (.ok (detect_objects (fun _ => none) (fun _ => none)
            (.error "ConnectionError")))
        = .ok ⟨false, [], 0⟩
      ∧ http_status (detect_image pilOk (some jpegBytes) (.error "boom")) = 200 :=
  ⟨rfl,
    (C5_downstream_failure_200 pilOk jpegBytes (fun _ => none) (fun _ => none)
      rfl).1 "ConnectionError",
    (C5_downstream_failure_200 pilOk jpegBytes (fun _ => none) (fun _ => none)
      rfl).2.2 (.error "boom")⟩

/-- C6: a response text in which the regex finds no bracketed array,
and a matched substring on which the JSON decode raises, both make the
Response Extractor return the empty list rather than an error. -/
theorem C6_empty_on_no_match_or_bad_json (search : String → Option String)
    (jsonLoads : String → Option (List JValue)) (t : String)
    (rest : List (Option String)) :
    (search t = none → parse_gemini_response search jsonLoads ⟨some t :: rest⟩ = [])
      ∧ ∀ s : String, search t = some s → jsonLoads s = none →
          parse_gemini_response search jsonLoads ⟨some t :: rest⟩ = [] := by
  constructor
  · intro hs
    simp [parse_gemini_response, hs]
  · intro s hs hl
    simp [parse_gemini_response, hs, hl]

/-- C6 witness: concrete search and decode oracles exercising both
empty-result branches. -/
theorem C6_empty_on_no_match_or_bad_json_witness :
    parse_gemini_response (fun _ => none) (fun _ => none) ⟨[some "prose only"]⟩ = []
      ∧ parse_gemini_response (fun _ => some "not json") (fun _ => none)
          ⟨[some "t"]⟩ = [] :=
  ⟨(C6_empty_on_no_match_or_bad_json (fun _ => none) (fun _ => none)
      "prose only" []).1 rfl,
    (C6_empty_on_no_match_or_bad_json (fun _ => some "not json") (fun _ => none)
      "t" []).2 "not json" rfl rfl⟩

/-- C7: validate_image returns true only when the decoded format is
one of jpeg, png, jpg, bmp and the structural verification succeeds;
an exception during either PIL step makes it return false (the model
is a total boolean function, so no exception escapes). -/
theorem C7_validate_image_safety (pil : PILOracle) (image_data : List Nat) :
    (validate_image pil image_data = true →
        ∃ f, get_image_format pil image_data = some f
          ∧ f ∈ ["jpeg", "png", "jpg", "bmp"]
          ∧ pil.verify image_data = .ok ())
      ∧ (∀ e : String, pil.openFormat image_data = .error e →
          validate_image pil image_data = false)
      ∧ (∀ e : String, pil.verify image_data = .error e →
          validate_image pil image_data = false) := by
  refine ⟨?_, ?_, ?_⟩
  · intro h
    unfold validate_image at h
    split at h
    · exact absurd h (by simp)
    · rename_i f hf
      split at h
      · rename_i hc
        split at h
        · rename_i u hv
          exact ⟨f, hf, by simpa using hc, by cases u; exact hv⟩
        · exact absurd h (by simp)
      · exact absurd h (by simp)
  · intro e he
    simp [validate_image, get_image_format, he]
  · intro e he
    unfold validate_image
    cases hf : get_image_format pil image_data with
    | none => rfl
    | some f => simp [he]

/-- C7 witness: junk bytes whose opening raises give false; a
well-formed JPEG gives a supported format and a passing verify. -/
theorem C7_validate_image_safety_witness :
    validate_image pilJunk junkBytes = false
      ∧ ∃ f, get_image_format pilOk jpegBytes = some f
          ∧ f ∈ ["jpeg", "png", "jpg", "bmp"]
          ∧ pilOk.verify jpegBytes = .ok () :=
  ⟨(C7_validate_image_safety pilJunk junkBytes).2.1 "UnidentifiedImageError" rfl,
    (C7_validate_image_safety pilOk jpegBytes).1 rfl⟩

/-- C8, code evaluation at the failing input: non-image bytes make the
/detect handler raise HTTPException with status 422, which FastAPI
renders with the default handler as a body holding a single detail
field — the runtime 422 body carries no error_code key, although the
response model declared for documentation,
UnprocessableEntityResponse, fixes error_code = 422. -/
theorem C8_422_body_has_no_error_code :
    validate_image pilJunk junkBytes = false
      ∧ detect_image pilJunk (some junkBytes) (.ok ⟨false, [], 0⟩)
        = .httpError 422 "Invalid image format"
      ∧ http_status (detect_image pilJunk (some junkBytes) (.ok ⟨false, [], 0⟩)) = 422
      ∧ detect_image pilJunk none (.ok ⟨false, [], 0⟩)
        = .httpError 422 "No image provided"
      ∧ fastapi_http_exception_body "Invalid image format"
        = [("detail", .str "Invalid image format")]
      ∧ lookupField (fastapi_http_exception_body "Invalid image format") "error_code"
        = none
      ∧ lookupField (fastapi_http_exception_body "Invalid image format") "error_message"
        = none
      ∧ (mkUnprocessableEntityResponse "Invalid image format").error_code = 422 :=
  ⟨rfl, rfl, rfl, rfl, rfl, rfl, rfl, rfl⟩

/-- C9: when the asset directory does not exist, the GET /asset/
handler returns HTTP 200 with success true and a null file. -/
theorem C9_absent_dir_success_null (fs : FS) (pick : Nat) (model : PlasticType)
    (asset_type : AssetType) (h : fs.pathExists "app/assets/created" = false) :
    get_asset fs pick model asset_type = .ok (.ok ⟨true, none⟩) := by
  simp [get_asset, get_created_asset, h]

/-- C9 witness: the absent-directory filesystem. -/
theorem C9_absent_dir_success_null_witness :
    fsNoDir.pathExists "app/assets/created" = false
      ∧ get_asset fsNoDir 0 .cup .texture = .ok (.ok ⟨true, none⟩) :=
  ⟨rfl, C9_absent_dir_success_null fsNoDir 0 .cup .texture rfl⟩

/-- C10: every AssetFile the program constructs — by read_asset_file
from a file on disk or by request_create_asset from generated inline
data — has size equal to the number of bytes recovered by base64
decoding its content_base64. -/
theorem C10_size_eq_decoded_length :
    (∀ (fs : FS) (path : String) (data : List Nat) (af : AssetFile),
        fs.content path = some data → (∀ b ∈ data, b < 256) →
        read_asset_file fs path = .ok af →
        af.size = some (b64decodeBytes af.content_base64).length)
      ∧ ∀ (parts : List GenPart) (data : List Nat)
          (asset_model asset_type now : String) (af : AssetFile),
          firstInlineData parts = some data → (∀ b ∈ data, b < 256) →
          request_create_asset (.ok parts) asset_model asset_type now
            = ⟨true, some af⟩ →
          af.size = some (b64decodeBytes af.content_base64).length := by
  constructor
  · intro fs path data af hc hb hr
    simp [read_asset_file, hc] at hr
    subst hr
    simp [b64decode_b64encode data hb]
  · intro parts data asset_model asset_type now af hfirst hb hr
    simp [request_create_asset, hfirst] at hr
    subst hr
    simp [b64decode_b64encode data hb]

/-- C10 witness: both constructors applied to concrete bytes. -/
theorem C10_size_eq_decoded_length_witness :
    read_asset_file fsOne "app/assets/created/cup_texture_1.jpg"
        = .ok ⟨"cup_texture_1.jpg", b64encodeBytes [0, 1, 254, 255], some 4⟩
      ∧ (AssetFile.mk "cup_texture_1.jpg" (b64encodeBytes [0, 1, 254, 255])
          (some 4)).size
        = some (b64decodeBytes (b64encodeBytes [0, 1, 254, 255])).length
      ∧ request_create_asset (.ok [⟨some [7, 8]⟩]) "cup" "texture" "2025"
        = ⟨true, some ⟨"cup_texture_2025.jpg", b64encodeBytes [7, 8], some 2⟩⟩
      ∧ (AssetFile.mk "cup_texture_2025.jpg" (b64encodeBytes [7, 8]) (some 2)).size
        = some (b64decodeBytes (b64encodeBytes [7, 8])).length :=
  ⟨rfl,
    C10_size_eq_decoded_length.1 fsOne "app/assets/created/cup_texture_1.jpg"
      [0, 1, 254, 255] ⟨"cup_texture_1.jpg", b64encodeBytes [0, 1, 254, 255], some 4⟩
      rfl (by decide) rfl,
    rfl,
    C10_size_eq_decoded_length.2 [⟨some [7, 8]⟩] [7, 8] "cup" "texture" "2025"
      ⟨"cup_texture_2025.jpg", b64encodeBytes [7, 8], some 2⟩ rfl (by decide) rfl⟩
